import Mathlib

/-!
Verification of the resource-collection facades of a document-database client
library: `UserDefinedFunctions` (src/client/UserDefinedFunction/
UserDefinedFunctions.ts) and `Databases` (an earlier-style facade delegating
to `documentClient`).  The facades are embedded shallowly: the unseen
request-dispatch layer (`ClientContext` / `documentClient`) is a function
parameter, facade methods return an outcome record carrying the method
result, the facade object after the call, the caller-visible mutation of the
request body, and the ordered list of dispatch-layer invocations made during
the call.  JavaScript's single dynamic `throw` channel is embedded as an
`Except` whose error type separates the locally constructed generic
validation error from an error value surfaced by the dispatch layer.
-/

/-- HTTP-style response headers, as an association list. -/
abbrev Headers := List (String × String)

/-- A SQL query specification; opaque payload forwarded to the dispatch layer. -/
structure SqlQuerySpec where
  query : String
  deriving DecidableEq, Repr

/-- Per-request options; opaque payload forwarded to the dispatch layer. -/
structure RequestOptions where
  tag : Nat
  deriving DecidableEq, Repr

/-- Per-feed options; opaque payload forwarded to the dispatch layer. -/
structure FeedOptions where
  tag : Nat
  deriving DecidableEq, Repr

/-- The JavaScript value held in a UDF definition's `body` field: either
already a string, or a function value whose `toString()` yields its source. -/
inductive UdfBody where
  | str (s : String)
  | fn (src : String)
  deriving DecidableEq, Repr

/-- JavaScript `toString()` on a UDF body value. -/
def UdfBody.jsToStr : UdfBody → String
  | .str s => s
  | .fn src => src

/-- JavaScript truthiness of a UDF body value: the empty string is falsy,
every other string and every function value is truthy. -/
def UdfBody.truthy : UdfBody → Bool
  | .str s => !(s == "")
  | .fn _ => true

/-- A `UserDefinedFunctionDefinition` DTO: `id` and `body`, each possibly
absent (JavaScript `undefined`). -/
structure UserDefinedFunctionDefinition where
  id : Option String
  body : Option UdfBody
  deriving DecidableEq, Repr

/-- The in-place coercion performed at the top of `create` and `upsert`:
`if (body.body) { body.body = body.body.toString(); }`. -/
def coerceBody (d : UserDefinedFunctionDefinition) : UserDefinedFunctionDefinition :=
  match d.body with
  | some v => if v.truthy then { d with body := some (.str v.jsToStr) } else d
  | none => d

/-- Modelled from the spec: `Helper.isResourceValid` is not in the reviewed
source (only its callers are).  The spec says validation failures are missing
required fields; for a user-defined function the required fields are `id` and
`body`. -/
def isResourceValid (d : UserDefinedFunctionDefinition) : Bool :=
  d.id.isSome && d.body.isSome

/-- Modelled from the spec: `Helper.getPathFromLink` is not in the reviewed
source.  The spec says each method maps to the parent resource's path joined
with the item-kind segment (container path + "udfs"). -/
def Helper.getPathFromLink (parentLink : String) (seg : String) : String :=
  if parentLink.endsWith "/" then parentLink ++ seg else parentLink ++ "/" ++ seg

/-- Modelled from the spec: `Helper.getIdFromLink` is not in the reviewed
source.  It derives the parent resource's id from its link; the claims only
constrain that the derived id is forwarded to the dispatch layer, so the
extraction is modelled as the last nonempty segment of the link. -/
def Helper.getIdFromLink (link : String) : String :=
  ((link.splitOn "/").filter (fun s => !(s == ""))).getLastD ""

/-- A server-side resource returned by the dispatch layer for a UDF write:
carries the server-assigned `id` and the stored body. -/
structure UdfResource where
  id : String
  body : String
  deriving DecidableEq, Repr

/-- The dispatch layer's raw response to `clientContext.create` /
`clientContext.upsert`: `{ result, headers }`. -/
structure DispatchRes where
  result : UdfResource
  headers : Headers
  deriving DecidableEq, Repr

/-- Which dispatch-layer entry point a facade write invokes. -/
inductive DispatchOp where
  | create
  | upsert
  deriving DecidableEq, Repr

/-- One invocation of the dispatch layer by a UDF facade write: the arguments
of `clientContext.create(body, path, "udfs", id, undefined, options)` (and
likewise for `upsert`). -/
structure DispatchReq where
  op : DispatchOp
  body : UserDefinedFunctionDefinition
  path : String
  resourceType : String
  resourceId : String
  options : Option RequestOptions
  deriving DecidableEq, Repr

/-- A `DatabaseDefinition` DTO. -/
structure DatabaseDefinition where
  id : Option String
  deriving DecidableEq, Repr

/-- The dispatch layer's response to `documentClient.createDatabase`. -/
structure DbResponse where
  result : DatabaseDefinition
  headers : Headers
  deriving DecidableEq, Repr

/-- The iterator value returned by `documentClient.queryDatabases` /
`readDatabases`; opaque to the facade, modelled as a token. -/
structure DbFeedIterator where
  tok : Nat
  deriving DecidableEq, Repr

/-- The unseen `documentClient` dispatch component, as a record of its three
entry points used by `Databases`; `ε` is the dynamic error type of a failed
promise. -/
structure DocumentClient (ε : Type) where
  queryDatabases : Option SqlQuerySpec → Option FeedOptions → DbFeedIterator
  createDatabase : DatabaseDefinition → Option RequestOptions → Except ε DbResponse
  readDatabases : Option FeedOptions → DbFeedIterator

/-- A `CosmosClient`: the facades reach the dispatch layer through its
`documentClient`. -/
structure CosmosClient (ε : Type) where
  documentClient : DocumentClient ε

/-- A `ClientContext` reference; the facades store it and hand it to child
handles and query iterators.  Its dispatch behaviour is passed separately as
a function, so the stored reference is an identity token. -/
structure ClientContext where
  tok : Nat
  deriving DecidableEq, Repr

/-- A `Database` handle: `new Database(client, id)`. -/
structure Database (ε : Type) where
  client : CosmosClient ε
  id : String

/-- A `Container` handle: has a `url` and a parent `database`. -/
structure Container (ε : Type) where
  url : String
  database : Database ε

/-- A `UserDefinedFunction` child handle:
`new UserDefinedFunction(container, id, clientContext)`. -/
structure UserDefinedFunction (ε : Type) where
  container : Container ε
  id : String
  clientContext : ClientContext

/-- The `UserDefinedFunctions` facade: fields `container`, `clientContext`
and `client` (set from `container.database.client` in the constructor). -/
structure UserDefinedFunctions (ε : Type) where
  container : Container ε
  clientContext : ClientContext
  client : CosmosClient ε

/-- The `UserDefinedFunctions` constructor:
stores the container and clientContext, and sets
`this.client = this.container.database.client`. -/
def UserDefinedFunctions.init {ε : Type} (container : Container ε)
    (clientContext : ClientContext) : UserDefinedFunctions ε :=
  { container := container, clientContext := clientContext,
    client := container.database.client }

/-- A `UserDefinedFunctionResponse`: the dispatch result as `body`, the raw
headers, and three aliases of the child handle built from the server id. -/
structure UserDefinedFunctionResponse (ε : Type) where
  body : UdfResource
  headers : Headers
  ref : UserDefinedFunction ε
  userDefinedFunction : UserDefinedFunction ε
  udf : UserDefinedFunction ε

/-- The error channel of a facade write: either the locally constructed
generic error object (`const err = {}; ... throw err;`) raised on validation
failure, or an error value surfaced unchanged from the dispatch layer.  The
two constructors embed JavaScript's single untyped `throw` channel; the
payload of `dispatchError` is the dispatch layer's error value itself. -/
inductive FacadeError (ε : Type) where
  | genericError
  | dispatchError (e : ε)
  deriving DecidableEq, Repr

/-- The full observable outcome of one invocation of a UDF facade write:
the facade object after the call, the caller's definition object after the
call (the in-place `body.body` coercion is visible to the caller), the
ordered dispatch-layer invocations, and the returned or thrown value. -/
structure UdfWriteOutcome (ε : Type) where
  facadeAfter : UserDefinedFunctions ε
  callerBody : UserDefinedFunctionDefinition
  calls : List DispatchReq
  result : Except (FacadeError ε) (UserDefinedFunctionResponse ε)

/-- The dispatch request a UDF write builds:
path `getPathFromLink(container.url, "udfs")`, item-kind discriminator
"udfs", id `getIdFromLink(container.url)`. -/
def UserDefinedFunctions.writeRequest {ε : Type} (u : UserDefinedFunctions ε)
    (op : DispatchOp) (body : UserDefinedFunctionDefinition)
    (options : Option RequestOptions) : DispatchReq :=
  { op := op, body := body,
    path := Helper.getPathFromLink u.container.url "udfs",
    resourceType := "udfs",
    resourceId := Helper.getIdFromLink u.container.url,
    options := options }

/-- `UserDefinedFunctions.create`: coerce `body.body` in place, validate,
throw the generic error locally on failure (no dispatch), otherwise invoke
`clientContext.create` once and reshape its response, building the child
handle from the container, the server-assigned id, and the clientContext. -/
def UserDefinedFunctions.create {ε : Type} (u : UserDefinedFunctions ε)
    (dispatch : DispatchReq → Except ε DispatchRes)
    (body : UserDefinedFunctionDefinition) (options : Option RequestOptions) :
    UdfWriteOutcome ε :=
  let body := coerceBody body
  if isResourceValid body then
    let req := u.writeRequest DispatchOp.create body options
    { facadeAfter := u, callerBody := body, calls := [req],
      result :=
        match dispatch req with
        | Except.error e => Except.error (FacadeError.dispatchError e)
        | Except.ok response =>
          let ref : UserDefinedFunction ε :=
            { container := u.container, id := response.result.id,
              clientContext := u.clientContext }
          Except.ok { body := response.result, headers := response.headers,
                      ref := ref, userDefinedFunction := ref, udf := ref } }
  else
    { facadeAfter := u, callerBody := body, calls := [],
      result := Except.error FacadeError.genericError }

/-- `UserDefinedFunctions.upsert`: same shape as `create`, invoking
`clientContext.upsert`. -/
def UserDefinedFunctions.upsert {ε : Type} (u : UserDefinedFunctions ε)
    (dispatch : DispatchReq → Except ε DispatchRes)
    (body : UserDefinedFunctionDefinition) (options : Option RequestOptions) :
    UdfWriteOutcome ε :=
  let body := coerceBody body
  if isResourceValid body then
    let req := u.writeRequest DispatchOp.upsert body options
    { facadeAfter := u, callerBody := body, calls := [req],
      result :=
        match dispatch req with
        | Except.error e => Except.error (FacadeError.dispatchError e)
        | Except.ok response =>
          let ref : UserDefinedFunction ε :=
            { container := u.container, id := response.result.id,
              clientContext := u.clientContext }
          Except.ok { body := response.result, headers := response.headers,
                      ref := ref, userDefinedFunction := ref, udf := ref } }
  else
    { facadeAfter := u, callerBody := body, calls := [],
      result := Except.error FacadeError.genericError }

/-- The raw feed body returned by the service for a UDF feed; the facade's
result selector extracts its `UserDefinedFunctions` array. -/
structure FeedResult where
  UserDefinedFunctions : List UserDefinedFunctionDefinition
  deriving DecidableEq, Repr

/-- One page of a feed: the selected results and the response headers. -/
structure FeedResponse where
  result : List UserDefinedFunctionDefinition
  headers : Headers
  deriving DecidableEq, Repr

/-- The type of `clientContext.queryFeed` as the UDF facade calls it:
`queryFeed(path, "udfs", id, resultSelector, query, innerOptions)`. -/
abbrev QueryFeedFn (ε : Type) :=
  String → String → String → (FeedResult → List UserDefinedFunctionDefinition) →
  Option SqlQuerySpec → Option FeedOptions → Except ε FeedResponse

/-- A `QueryIterator` as constructed by the UDF facade:
`new QueryIterator(clientContext, query, options, fetchFunction)`.  The
fetch function is the closure the facade builds; it receives the
`queryFeed` dispatch entry point and the inner options when a page is
actually fetched, later than the facade call itself. -/
structure QueryIterator (ε : Type) where
  clientContext : ClientContext
  query : Option SqlQuerySpec
  options : Option FeedOptions
  fetchFunction : QueryFeedFn ε → Option FeedOptions → Except ε FeedResponse

/-- The outcome of invoking a UDF facade read (`query` / `readAll`): the
facade after the call, the constructed iterator, and the dispatch-layer
invocations made during the call itself.  The method body only constructs
the iterator and its closure; it invokes no `clientContext` entry point, so
the translation records no calls. -/
structure UdfQueryOutcome (ε : Type) where
  facadeAfter : UserDefinedFunctions ε
  iterator : QueryIterator ε
  calls : List DispatchReq

/-- `UserDefinedFunctions.query`: derive path and id from the container url
and return a `QueryIterator` whose fetch closure calls
`clientContext.queryFeed(path, "udfs", id, result => result.UserDefinedFunctions,
query, innerOptions)`. -/
def UserDefinedFunctions.query {ε : Type} (u : UserDefinedFunctions ε)
    (query : Option SqlQuerySpec) (options : Option FeedOptions) :
    UdfQueryOutcome ε :=
  let path := Helper.getPathFromLink u.container.url "udfs"
  let id := Helper.getIdFromLink u.container.url
  { facadeAfter := u,
    iterator :=
      { clientContext := u.clientContext, query := query, options := options,
        fetchFunction := fun queryFeed innerOptions =>
          queryFeed path "udfs" id (fun result => result.UserDefinedFunctions)
            query innerOptions },
    calls := [] }

/-- `UserDefinedFunctions.readAll`: `return this.query(undefined, options);`. -/
def UserDefinedFunctions.readAll {ε : Type} (u : UserDefinedFunctions ε)
    (options : Option FeedOptions) : UdfQueryOutcome ε :=
  u.query none options

/-- The `Databases` facade: a single field `client`. -/
structure Databases (ε : Type) where
  client : CosmosClient ε

/-- One delegation from the `Databases` facade to `documentClient`, with the
arguments it forwarded. -/
inductive DbCall where
  | queryDatabases (query : Option SqlQuerySpec) (options : Option FeedOptions)
  | createDatabase (body : DatabaseDefinition) (options : Option RequestOptions)
  | readDatabases (options : Option FeedOptions)
  deriving DecidableEq, Repr

/-- The outcome of `Databases.getDatabase`: the facade after the call, the
constructed `Database` handle, and the delegations made (none — the method
only constructs the handle). -/
structure DbGetOutcome (ε : Type) where
  facadeAfter : Databases ε
  result : Database ε
  calls : List DbCall

/-- `Databases.getDatabase`: `return new Database(this.client, id);`. -/
def Databases.getDatabase {ε : Type} (d : Databases ε) (id : String) :
    DbGetOutcome ε :=
  { facadeAfter := d, result := { client := d.client, id := id }, calls := [] }

/-- The outcome of `Databases.query` / `Databases.read`: the iterator the
delegation returned, and the single delegation made. -/
structure DbIterOutcome (ε : Type) where
  facadeAfter : Databases ε
  result : DbFeedIterator
  calls : List DbCall

/-- `Databases.query`:
`return this.client.documentClient.queryDatabases(query, options);`. -/
def Databases.query {ε : Type} (d : Databases ε) (query : Option SqlQuerySpec)
    (options : Option FeedOptions) : DbIterOutcome ε :=
  { facadeAfter := d,
    result := d.client.documentClient.queryDatabases query options,
    calls := [DbCall.queryDatabases query options] }

/-- `Databases.read`:
`return this.client.documentClient.readDatabases(options);`. -/
def Databases.read {ε : Type} (d : Databases ε) (options : Option FeedOptions) :
    DbIterOutcome ε :=
  { facadeAfter := d,
    result := d.client.documentClient.readDatabases options,
    calls := [DbCall.readDatabases options] }

/-- The outcome of `Databases.create`: the promise the delegation returned
(resolved or failed), and the single delegation made. -/
structure DbCreateOutcome (ε : Type) where
  facadeAfter : Databases ε
  result : Except ε DbResponse
  calls : List DbCall

/-- `Databases.create`:
`return this.client.documentClient.createDatabase(body, options);` — the
promise is returned as-is, with no validation, reshaping, or error
handling. -/
def Databases.create {ε : Type} (d : Databases ε) (body : DatabaseDefinition)
    (options : Option RequestOptions) : DbCreateOutcome ε :=
  { facadeAfter := d,
    result := d.client.documentClient.createDatabase body options,
    calls := [DbCall.createDatabase body options] }

/-! Concrete fixtures used by witness and counterexample theorems.  The
error type is instantiated with `String` (a dynamic error message). -/

/-- A dispatch component whose `createDatabase` succeeds, echoing the body. -/
def exDocumentClient : DocumentClient String where
  queryDatabases := fun _ _ => { tok := 1 }
  createDatabase := fun b _ => Except.ok { result := b, headers := [("x-status", "201")] }
  readDatabases := fun _ => { tok := 2 }

/-- A dispatch component whose `createDatabase` fails. -/
def exDocumentClientErr : DocumentClient String where
  queryDatabases := fun _ _ => { tok := 1 }
  createDatabase := fun _ _ => Except.error "db-error"
  readDatabases := fun _ => { tok := 2 }

/-- A client over the succeeding dispatch component. -/
def exClient : CosmosClient String := { documentClient := exDocumentClient }

/-- A client over the failing dispatch component. -/
def exClientErr : CosmosClient String := { documentClient := exDocumentClientErr }

/-- A client-context token. -/
def exClientContext : ClientContext := { tok := 7 }

/-- A parent database handle. -/
def exDatabase : Database String := { client := exClient, id := "db1" }

/-- A parent container. -/
def exContainer : Container String :=
  { url := "dbs/db1/colls/c1", database := exDatabase }

/-- A UDF facade over the fixtures, built by the constructor. -/
def exUdfs : UserDefinedFunctions String :=
  UserDefinedFunctions.init exContainer exClientContext

/-- A `Databases` facade over the succeeding client. -/
def exDatabases : Databases String := { client := exClient }

/-- A `Databases` facade over the failing client. -/
def exDatabasesErr : Databases String := { client := exClientErr }

/-- A valid UDF definition whose body is a function value. -/
def exValidBody : UserDefinedFunctionDefinition :=
  { id := some "udf1", body := some (UdfBody.fn "fnsrc") }

/-- An invalid UDF definition: the required `id` is missing, while the body
is a truthy function value. -/
def exInvalidBody : UserDefinedFunctionDefinition :=
  { id := none, body := some (UdfBody.fn "fnsrc") }

/-- A database definition with the id missing. -/
def exInvalidDbBody : DatabaseDefinition := { id := none }

/-- A fixed dispatch-layer success response for a UDF write. -/
def exServerRes : DispatchRes :=
  { result := { id := "server-udf-1", body := "fnsrc" }, headers := [("etag", "abc")] }

/-- A dispatch function that always succeeds with `exServerRes`. -/
def exDispatchOk : DispatchReq → Except String DispatchRes :=
  fun _ => Except.ok exServerRes

/-- A dispatch function that always fails. -/
def exDispatchErr : DispatchReq → Except String DispatchRes :=
  fun _ => Except.error "dispatch-error"

/-- A `queryFeed` entry point that always fails. -/
def exQueryFeedErr : QueryFeedFn String :=
  fun _ _ _ _ _ _ => Except.error "feed-error"

/-- A `queryFeed` probe that reports, in its response, the path, item-kind
discriminator and resource id it was invoked with, and applies the result
selector it was handed to a one-element raw feed. -/
def probeFeed {ε : Type} (d : UserDefinedFunctionDefinition) : QueryFeedFn ε :=
  fun path resourceType id sel _ _ =>
    Except.ok { result := sel { UserDefinedFunctions := [d] },
                headers := [("path", path), ("resourceType", resourceType), ("id", id)] }

/-- C1: a definition that fails `Helper.isResourceValid` (after the in-place
body coercion) makes `create` and `upsert` throw the locally constructed
generic error object, and the dispatch layer is never invoked (no network
call happens). -/
theorem C1_invalid_rejected_before_dispatch {ε : Type}
    (u : UserDefinedFunctions ε) (dispatch : DispatchReq → Except ε DispatchRes)
    (body : UserDefinedFunctionDefinition) (options : Option RequestOptions)
    (h : isResourceValid (coerceBody body) = false) :
    (u.create dispatch body options).result = Except.error FacadeError.genericError ∧
    (u.create dispatch body options).calls = [] ∧
    (u.upsert dispatch body options).result = Except.error FacadeError.genericError ∧
    (u.upsert dispatch body options).calls = [] := by
  simp [UserDefinedFunctions.create, UserDefinedFunctions.upsert, h]

/-- C1 witness: the concrete definition with a missing `id` is invalid, and
`create` on it throws the generic error without any dispatch call. -/
theorem C1_invalid_rejected_before_dispatch_witness :
    isResourceValid (coerceBody exInvalidBody) = false ∧
    (exUdfs.create exDispatchOk exInvalidBody none).result
      = Except.error FacadeError.genericError ∧
    (exUdfs.create exDispatchOk exInvalidBody none).calls = [] := by
  have h := C1_invalid_rejected_before_dispatch exUdfs exDispatchOk exInvalidBody none
    (by decide)
  exact ⟨by decide, h.1, h.2.1⟩

/-- C2: on a valid definition, when the dispatch layer succeeds, `create`
and `upsert` return a response whose `body` is the dispatch layer's result
(so `body.id` is the server-assigned id) and whose `ref`,
`userDefinedFunction` and `udf` fields are all the child handle built from
the parent container, the server-assigned `response.result.id`, and the
shared clientContext. -/
theorem C2_valid_write_reshapes_response {ε : Type}
    (u : UserDefinedFunctions ε) (dispatch : DispatchReq → Except ε DispatchRes)
    (body : UserDefinedFunctionDefinition) (options : Option RequestOptions)
    (res : DispatchRes)
    (hv : isResourceValid (coerceBody body) = true)
    (hc : dispatch (u.writeRequest DispatchOp.create (coerceBody body) options)
      = Except.ok res)
    (hu : dispatch (u.writeRequest DispatchOp.upsert (coerceBody body) options)
      = Except.ok res) :
    (u.create dispatch body options).result =
      Except.ok { body := res.result, headers := res.headers,
                  ref := { container := u.container, id := res.result.id,
                           clientContext := u.clientContext },
                  userDefinedFunction := { container := u.container, id := res.result.id,
                                           clientContext := u.clientContext },
                  udf := { container := u.container, id := res.result.id,
                           clientContext := u.clientContext } } ∧
    (u.upsert dispatch body options).result =
      Except.ok { body := res.result, headers := res.headers,
                  ref := { container := u.container, id := res.result.id,
                           clientContext := u.clientContext },
                  userDefinedFunction := { container := u.container, id := res.result.id,
                                           clientContext := u.clientContext },
                  udf := { container := u.container, id := res.result.id,
                           clientContext := u.clientContext } } := by
  simp [UserDefinedFunctions.create, UserDefinedFunctions.upsert, hv, hc, hu]

/-- C2 witness: the concrete valid definition, dispatched against the
always-succeeding dispatch function, yields the reshaped response built
around the fixed server result. -/
theorem C2_valid_write_reshapes_response_witness :
    isResourceValid (coerceBody exValidBody) = true ∧
    exDispatchOk (exUdfs.writeRequest DispatchOp.create (coerceBody exValidBody) none)
      = Except.ok exServerRes ∧
    (exUdfs.create exDispatchOk exValidBody none).result =
      Except.ok { body := exServerRes.result, headers := exServerRes.headers,
                  ref := { container := exUdfs.container, id := exServerRes.result.id,
                           clientContext := exUdfs.clientContext },
                  userDefinedFunction := { container := exUdfs.container,
                                           id := exServerRes.result.id,
                                           clientContext := exUdfs.clientContext },
                  udf := { container := exUdfs.container, id := exServerRes.result.id,
                           clientContext := exUdfs.clientContext } } := by
  have h := C2_valid_write_reshapes_response exUdfs exDispatchOk exValidBody none
    exServerRes (by decide) rfl rfl
  exact ⟨by decide, rfl, h.1⟩

/-- C3: a dispatch-layer failure surfaces to the caller unchanged.  For
`create` and `upsert` the error value of the dispatch layer is returned as
the thrown value (the `dispatchError` constructor embeds JavaScript's single
untyped throw channel; its payload is the dispatch error itself), and the
dispatch layer was invoked exactly once (no retry).  `Databases.create`
returns the dispatch promise as-is, so its failure is the same error value.
The query fetch closure returns whatever `queryFeed` returns, so a failing
feed call surfaces unchanged.  No facade method catches, wraps, retries or
transforms the failure. -/
theorem C3_dispatch_errors_propagate_unchanged {ε : Type}
    (u : UserDefinedFunctions ε) (dispatch : DispatchReq → Except ε DispatchRes)
    (body : UserDefinedFunctionDefinition) (options : Option RequestOptions)
    (e : ε) (dbs : Databases ε) (dbBody : DatabaseDefinition)
    (dbOptions : Option RequestOptions) (ed : ε) (qf : QueryFeedFn ε)
    (q : Option SqlQuerySpec) (fo io : Option FeedOptions) (ef : ε)
    (hv : isResourceValid (coerceBody body) = true)
    (hce : dispatch (u.writeRequest DispatchOp.create (coerceBody body) options)
      = Except.error e)
    (hue : dispatch (u.writeRequest DispatchOp.upsert (coerceBody body) options)
      = Except.error e)
    (hde : dbs.client.documentClient.createDatabase dbBody dbOptions
      = Except.error ed)
    (hfe : qf (Helper.getPathFromLink u.container.url "udfs") "udfs"
      (Helper.getIdFromLink u.container.url)
      (fun result => result.UserDefinedFunctions) q io = Except.error ef) :
    (u.create dispatch body options).result
      = Except.error (FacadeError.dispatchError e) ∧
    (u.create dispatch body options).calls
      = [u.writeRequest DispatchOp.create (coerceBody body) options] ∧
    (u.upsert dispatch body options).result
      = Except.error (FacadeError.dispatchError e) ∧
    (u.upsert dispatch body options).calls
      = [u.writeRequest DispatchOp.upsert (coerceBody body) options] ∧
    (dbs.create dbBody dbOptions).result = Except.error ed ∧
    (u.query q fo).iterator.fetchFunction qf io = Except.error ef := by
  refine ⟨?_, ?_, ?_, ?_, ?_, ?_⟩
  · simp [UserDefinedFunctions.create, hv, hce]
  · simp [UserDefinedFunctions.create, hv]
  · simp [UserDefinedFunctions.upsert, hv, hue]
  · simp [UserDefinedFunctions.upsert, hv]
  · simp [Databases.create, hde]
  · simp [UserDefinedFunctions.query, hfe]

/-- C3 witness: with the always-failing dispatch function, the failing
database client and the failing feed entry point, the concrete valid
definition surfaces each error value unchanged. -/
theorem C3_dispatch_errors_propagate_unchanged_witness :
    isResourceValid (coerceBody exValidBody) = true ∧
    (exUdfs.create exDispatchErr exValidBody none).result
      = Except.error (FacadeError.dispatchError "dispatch-error") ∧
    (exDatabasesErr.create exInvalidDbBody none).result
      = Except.error "db-error" ∧
    (exUdfs.query none none).iterator.fetchFunction exQueryFeedErr none
      = Except.error "feed-error" := by
  have h := C3_dispatch_errors_propagate_unchanged exUdfs exDispatchErr exValidBody
    none "dispatch-error" exDatabasesErr exInvalidDbBody none "db-error"
    exQueryFeedErr none none none "feed-error" (by decide) rfl rfl rfl rfl
  exact ⟨by decide, h.1, h.2.2.2.2.1, h.2.2.2.2.2⟩

/-- C4: every dispatch-layer invocation made by `create` and `upsert` uses
the path `Helper.getPathFromLink(container.url, "udfs")` and the item-kind
discriminator "udfs", and the fetch closure built by `query` hands
`queryFeed` that same path, the discriminator "udfs", the id derived from
the container url, and the selector extracting the `UserDefinedFunctions`
array (exhibited by a probe that echoes its arguments). -/
theorem C4_path_and_discriminator {ε : Type}
    (u : UserDefinedFunctions ε) (dispatch : DispatchReq → Except ε DispatchRes)
    (body : UserDefinedFunctionDefinition) (options : Option RequestOptions)
    (q : Option SqlQuerySpec) (fo io : Option FeedOptions)
    (d : UserDefinedFunctionDefinition) :
    ((u.create dispatch body options).calls.all fun c =>
      c.path == Helper.getPathFromLink u.container.url "udfs"
        && c.resourceType == "udfs") = true ∧
    ((u.upsert dispatch body options).calls.all fun c =>
      c.path == Helper.getPathFromLink u.container.url "udfs"
        && c.resourceType == "udfs") = true ∧
    (u.query q fo).iterator.fetchFunction (probeFeed d) io =
      Except.ok { result := [d],
                  headers := [("path", Helper.getPathFromLink u.container.url "udfs"),
                              ("resourceType", "udfs"),
                              ("id", Helper.getIdFromLink u.container.url)] } := by
  refine ⟨?_, ?_, ?_⟩
  · cases h : isResourceValid (coerceBody body) <;>
      simp [UserDefinedFunctions.create, UserDefinedFunctions.writeRequest, h]
  · cases h : isResourceValid (coerceBody body) <;>
      simp [UserDefinedFunctions.upsert, UserDefinedFunctions.writeRequest, h]
  · simp [UserDefinedFunctions.query, probeFeed]

/-- C5 counterexample: the claim says every facade method, `Databases.query`,
`Databases.create` and `Databases.read` included, validates or reshapes its
request object and reshapes the response.  At this concrete input,
`Databases.create` forwards a definition with a missing required `id`
verbatim (no validation, no request reshaping) and returns the dispatch
layer's raw response verbatim (no response reshaping): its result is
literally `documentClient.createDatabase` applied to the unmodified
arguments, a success echoing the invalid body. -/
theorem C5_databases_passthrough_counterexample :
    (exDatabases.create exInvalidDbBody none).result
      = exClient.documentClient.createDatabase exInvalidDbBody none ∧
    (exDatabases.create exInvalidDbBody none).result
      = Except.ok { result := exInvalidDbBody, headers := [("x-status", "201")] } ∧
    (exDatabases.create exInvalidDbBody none).calls
      = [DbCall.createDatabase exInvalidDbBody none] ∧
    (exDatabases.query none none).result
      = exClient.documentClient.queryDatabases none none ∧
    (exDatabases.read none).result
      = exClient.documentClient.readDatabases none := by
  exact ⟨rfl, rfl, rfl, rfl, rfl⟩

/-- C5 as amended: every facade method delegates to the shared dispatch
component; `Databases.query`, `Databases.create` and `Databases.read`
forward their arguments and return the dispatch layer's result unchanged,
with no validation and no reshaping, while `UserDefinedFunctions.create`
validates the (coerced) request — rejecting invalid definitions locally —
and reshapes the dispatch response around the child handle. -/
theorem C5_amended_delegation_shapes {ε : Type}
    (dbs : Databases ε) (q : Option SqlQuerySpec) (fo : Option FeedOptions)
    (b : DatabaseDefinition) (o : Option RequestOptions)
    (u : UserDefinedFunctions ε) (dispatch : DispatchReq → Except ε DispatchRes)
    (b₁ b₂ : UserDefinedFunctionDefinition) (o₁ : Option RequestOptions)
    (res : DispatchRes)
    (h₁ : isResourceValid (coerceBody b₁) = false)
    (h₂ : isResourceValid (coerceBody b₂) = true)
    (hok : dispatch (u.writeRequest DispatchOp.create (coerceBody b₂) o₁)
      = Except.ok res) :
    (dbs.query q fo).result = dbs.client.documentClient.queryDatabases q fo ∧
    (dbs.create b o).result = dbs.client.documentClient.createDatabase b o ∧
    (dbs.read fo).result = dbs.client.documentClient.readDatabases fo ∧
    (u.create dispatch b₁ o₁).result = Except.error FacadeError.genericError ∧
    (u.create dispatch b₂ o₁).result =
      Except.ok { body := res.result, headers := res.headers,
                  ref := { container := u.container, id := res.result.id,
                           clientContext := u.clientContext },
                  userDefinedFunction := { container := u.container, id := res.result.id,
                                           clientContext := u.clientContext },
                  udf := { container := u.container, id := res.result.id,
                           clientContext := u.clientContext } } := by
  refine ⟨rfl, rfl, rfl, ?_, ?_⟩
  · simp [UserDefinedFunctions.create, h₁]
  · simp [UserDefinedFunctions.create, h₂, hok]

/-- C5 amended-claim witness: concrete instantiation with the invalid and
valid fixture definitions and the always-succeeding dispatch function. -/
theorem C5_amended_delegation_shapes_witness :
    isResourceValid (coerceBody exInvalidBody) = false ∧
    isResourceValid (coerceBody exValidBody) = true ∧
    (exDatabases.create exInvalidDbBody none).result
      = exClient.documentClient.createDatabase exInvalidDbBody none ∧
    (exUdfs.create exDispatchOk exInvalidBody none).result
      = Except.error FacadeError.genericError := by
  have h := C5_amended_delegation_shapes exDatabases none none exInvalidDbBody none
    exUdfs exDispatchOk exInvalidBody exValidBody none exServerRes
    (by decide) (by decide) rfl
  exact ⟨by decide, by decide, h.2.1, h.2.2.2.1⟩

/-- C6 counterexample: the claim says every listed operation, including
`Databases.getDatabase` and `UserDefinedFunctions.query`, suspends awaiting
a network response (hence performs a dispatch-layer call) before resolving.
At these concrete inputs `getDatabase` and `query` perform zero
dispatch-layer calls during the invocation: `getDatabase` returns the
handle synchronously and `query` only constructs the iterator, deferring
any fetch to the iterator's later use. -/
theorem C6_sync_operations_counterexample :
    (exDatabases.getDatabase "db1").calls = [] ∧
    ¬ (exDatabases.getDatabase "db1").calls.length = 1 ∧
    (exUdfs.query none none).calls = [] ∧
    ¬ (exUdfs.query none none).calls.length = 1 := by
  exact ⟨rfl, by decide, rfl, by decide⟩

/-- C6 as amended: every facade invocation returns exactly one outcome and
performs at most one dispatch-layer call: `create`/`upsert` dispatch at most
once (zero times when validation fails), `query`/`readAll` perform no
dispatch at invocation (the fetch closure runs only when the iterator is
consumed), the `Databases` feed and create methods make exactly one
delegation to `documentClient`, and `getDatabase` makes none. -/
theorem C6_amended_at_most_one_dispatch {ε : Type}
    (u : UserDefinedFunctions ε) (dispatch : DispatchReq → Except ε DispatchRes)
    (b : UserDefinedFunctionDefinition) (o : Option RequestOptions)
    (q : Option SqlQuerySpec) (fo : Option FeedOptions) (dbs : Databases ε)
    (db : DatabaseDefinition) (dbo : Option RequestOptions) (id : String) :
    (u.create dispatch b o).calls.length ≤ 1 ∧
    (u.upsert dispatch b o).calls.length ≤ 1 ∧
    (u.query q fo).calls = [] ∧
    (u.readAll fo).calls = [] ∧
    (dbs.query q fo).calls.length = 1 ∧
    (dbs.create db dbo).calls.length = 1 ∧
    (dbs.read fo).calls.length = 1 ∧
    (dbs.getDatabase id).calls = [] := by
  refine ⟨?_, ?_, rfl, rfl, rfl, rfl, rfl, rfl⟩
  · cases h : isResourceValid (coerceBody b) <;>
      simp [UserDefinedFunctions.create, h]
  · cases h : isResourceValid (coerceBody b) <;>
      simp [UserDefinedFunctions.upsert, h]

/-- C7: the facades retain no mutable state: every method of both facades
leaves the facade object it ran on unchanged (the source methods contain no
assignment to any field after construction), so no data from one call is
retained for a later one. -/
theorem C7_no_retained_state {ε : Type}
    (u : UserDefinedFunctions ε) (dispatch : DispatchReq → Except ε DispatchRes)
    (b : UserDefinedFunctionDefinition) (o : Option RequestOptions)
    (q : Option SqlQuerySpec) (fo : Option FeedOptions) (dbs : Databases ε)
    (db : DatabaseDefinition) (dbo : Option RequestOptions) (id : String) :
    (u.create dispatch b o).facadeAfter = u ∧
    (u.upsert dispatch b o).facadeAfter = u ∧
    (u.query q fo).facadeAfter = u ∧
    (u.readAll fo).facadeAfter = u ∧
    (dbs.query q fo).facadeAfter = dbs ∧
    (dbs.create db dbo).facadeAfter = dbs ∧
    (dbs.read fo).facadeAfter = dbs ∧
    (dbs.getDatabase id).facadeAfter = dbs := by
  refine ⟨?_, ?_, rfl, rfl, rfl, rfl, rfl, rfl⟩
  · cases h : isResourceValid (coerceBody b) <;>
      simp [UserDefinedFunctions.create, h]
  · cases h : isResourceValid (coerceBody b) <;>
      simp [UserDefinedFunctions.upsert, h]

/-- C8: `readAll options` is the very same call as `query` with an undefined
query specification: the outcomes are equal, so the iterators agree on the
clientContext, the (undefined) query, the options and the fetch closure. -/
theorem C8_readAll_is_query_undefined {ε : Type}
    (u : UserDefinedFunctions ε) (options : Option FeedOptions) :
    u.readAll options = u.query none options ∧
    (u.readAll options).iterator.query = none ∧
    (u.readAll options).iterator.options = options ∧
    (u.readAll options).iterator.clientContext = u.clientContext := by
  exact ⟨rfl, rfl, rfl, rfl⟩

/-- C9: `create` and `upsert` mutate the caller's definition object in
place: whenever its `body` holds a truthy value `v`, the caller's object
ends the call with `body` replaced by the string form `v.toString()`,
whatever the outcome — the coercion runs before validation, so the object is
modified even when the call then throws. -/
theorem C9_body_coerced_in_place {ε : Type}
    (u : UserDefinedFunctions ε) (dispatch : DispatchReq → Except ε DispatchRes)
    (b : UserDefinedFunctionDefinition) (o : Option RequestOptions) (v : UdfBody)
    (hb : b.body = some v) (hv : v.truthy = true) :
    (u.create dispatch b o).callerBody
      = { b with body := some (UdfBody.str v.jsToStr) } ∧
    (u.upsert dispatch b o).callerBody
      = { b with body := some (UdfBody.str v.jsToStr) } := by
  have hc : coerceBody b = { b with body := some (UdfBody.str v.jsToStr) } := by
    simp [coerceBody, hb, hv]
  constructor
  · simp only [UserDefinedFunctions.create, hc]
    split <;> rfl
  · simp only [UserDefinedFunctions.upsert, hc]
    split <;> rfl

/-- C9 witness: on the invalid fixture (missing id, function body), `create`
throws the generic validation error, yet the caller's object has had its
body replaced by the function's string form. -/
theorem C9_body_coerced_in_place_witness :
    exInvalidBody.body = some (UdfBody.fn "fnsrc") ∧
    (UdfBody.fn "fnsrc").truthy = true ∧
    (exUdfs.create exDispatchOk exInvalidBody none).callerBody
      = { id := none, body := some (UdfBody.str "fnsrc") } ∧
    (exUdfs.create exDispatchOk exInvalidBody none).result
      = Except.error FacadeError.genericError := by
  have h := C9_body_coerced_in_place exUdfs exDispatchOk exInvalidBody none
    (UdfBody.fn "fnsrc") rfl rfl
  exact ⟨rfl, rfl, h.1, rfl⟩

/-- C10: for every string id, the empty string included, `getDatabase`
returns a new `Database` handle built from the shared client and that exact
id, makes no dispatch-layer call, and leaves the facade unchanged; being a
total function of its arguments, it never throws. -/
theorem C10_getDatabase_pure_handle {ε : Type} (dbs : Databases ε) (id : String) :
    (dbs.getDatabase id).result = { client := dbs.client, id := id } ∧
    (dbs.getDatabase id).calls = [] ∧
    (dbs.getDatabase id).facadeAfter = dbs := by
  exact ⟨rfl, rfl, rfl⟩
